import Mathlib

/-!
Verification of the PawRun endless-runner core (src/components/GameCanvas.tsx).

The simulation state held in React refs is embedded as an explicit record
`GState`; the keydown handler becomes `handleInput`, the per-frame loop body
becomes `loopTick`, and `resetGame` mirrors the reset routine.  Quantities the
source keeps as JS numbers are embedded as exact rationals.  The parts of a
tick that depend on the rendering engine (bounding boxes produced by
`THREE.Box3.setFromObject`, the unseeded random draws of the spawner) are
supplied by an `Oracle` parameter, so every theorem quantifies over all
possible boxes and spawn outcomes.
-/

namespace PawRun

/-- Axis-aligned bounding box, mirroring the fields of `THREE.Box3`. -/
structure Box3 where
  minX : ℚ
  maxX : ℚ
  minY : ℚ
  maxY : ℚ
  minZ : ℚ
  maxZ : ℚ
deriving DecidableEq, Repr

/-- `THREE.Box3.intersectsBox`: boxes intersect unless they are separated on
some axis (touching counts as intersecting). -/
def Box3.intersects (a b : Box3) : Bool :=
  !(decide (b.maxX < a.minX) || decide (b.minX > a.maxX) ||
    decide (b.maxY < a.minY) || decide (b.minY > a.maxY) ||
    decide (b.maxZ < a.minZ) || decide (b.minZ > a.maxZ))

/-- `EntityType` from types.ts, restricted to the two obstacle classes stored
in `obstaclesRef` (coins are kept in their own list, as in the source). -/
inductive EntityType where
  | OBSTACLE_LOW
  | OBSTACLE_HIGH
deriving DecidableEq, Repr

/-- One entry of `obstaclesRef`: its classification (`userData.type`) and its
world position (only `y` and `z` are consulted by the loop logic). -/
structure Obstacle where
  id : ℕ
  type : EntityType
  posY : ℚ
  posZ : ℚ
deriving DecidableEq, Repr

/-- One entry of `coinsRef` (a bone collectible). -/
structure Coin where
  id : ℕ
  posZ : ℚ
deriving DecidableEq, Repr

/-- Discrete outputs of a tick or an input event: fire-and-forget audio cues
and the two presentation callbacks. -/
inductive Event where
  | audioJump
  | audioSlide
  | audioCoin
  | audioCrash
  | audioWhine
  | scoreUpdate (score : ℕ)
  | gameOver (finalScore : ℕ)
deriving DecidableEq, Repr

/-- The simulation state: every mutable ref of `GameCanvas` that the game
logic reads or writes. -/
structure GState where
  score : ℕ
  speed : ℚ
  lane : ℤ
  currentLaneX : ℚ
  velY : ℚ
  jumpY : ℚ
  isJumping : Bool
  isSliding : Bool
  slideTimer : ℤ
  active : Bool
  playerZ : ℚ
  lastSpawnZ : ℚ
  coins : List Coin
  obstacles : List Obstacle
  scenery : List ℚ
  floorChunks : List ℚ
deriving DecidableEq, Repr

-- Configuration constants from the top of GameCanvas.tsx.

def LANE_WIDTH : ℚ := 4
def PLAYER_SPEED_BASE : ℚ := mkRat 1 4
def MAX_SPEED : ℚ := mkRat 3 5
def GRAVITY : ℚ := mkRat 3 250
def JUMP_FORCE : ℚ := mkRat 1 2
def LANE_CHANGE_SPEED : ℚ := mkRat 1 5
def CHUNK_LENGTH : ℚ := 20
def SPEED_INCREMENT : ℚ := mkRat 1 20000

/-- Inputs the simulation cannot compute for itself: the bounding boxes the
renderer reports for the player and for each entity this frame, and the
entities the random spawner would append when the spawn threshold is crossed. -/
structure Oracle where
  rawPlayerBox : Box3
  coinBox : ℕ → Box3
  obstacleBox : ℕ → Box3
  newCoins : List Coin
  newObstacles : List Obstacle
  newScenery : List ℚ

/-- The player hitbox shrink applied in the loop: x by 0.3, z by 0.4, y by 0.2. -/
def shrinkPlayerBox (b : Box3) : Box3 :=
  { b with minX := b.minX + mkRat 3 10, maxX := b.maxX - mkRat 3 10,
           minZ := b.minZ + mkRat 2 5, maxZ := b.maxZ - mkRat 2 5,
           minY := b.minY + mkRat 1 5, maxY := b.maxY - mkRat 1 5 }

/-- The obstacle hitbox shrink applied in the loop: x and z by 0.2. -/
def shrinkObstacleBox (b : Box3) : Box3 :=
  { b with minX := b.minX + mkRat 1 5, maxX := b.maxX - mkRat 1 5,
           minZ := b.minZ + mkRat 1 5, maxZ := b.maxZ - mkRat 1 5 }

/-- `key.toLowerCase()`: lowercase the key string character by character
(identical to `String.toLower` on the ASCII key identifiers the game reads,
and kept as an explicit map so that concrete inputs evaluate). -/
def lowerStr (s : String) : String := String.mk (s.data.map Char.toLower)

-- The keydown handler (`handleInput`).  The four key blocks run in sequence
-- on the current state, exactly as the source mutates the refs in order.

def handleInput (key : String) (s : GState) : GState × List Event :=
  if s.active = false then (s, [])
  else
    let k := lowerStr key
    let r1 : GState × List Event :=
      if (k = "a" ∨ k = "arrowleft") ∧ 0 < s.lane then
        ({ s with lane := s.lane - 1 }, [Event.audioSlide])
      else (s, [])
    let r2 : GState × List Event :=
      if (k = "d" ∨ k = "arrowright") ∧ r1.1.lane < 2 then
        ({ r1.1 with lane := r1.1.lane + 1 }, [Event.audioSlide])
      else (r1.1, [])
    let r3 : GState × List Event :=
      if (k = "w" ∨ k = "arrowup" ∨ k = " ") ∧
          r2.1.isJumping = false ∧ r2.1.isSliding = false then
        ({ r2.1 with isJumping := true, velY := JUMP_FORCE }, [Event.audioJump])
      else (r2.1, [])
    let r4 : GState × List Event :=
      if (k = "s" ∨ k = "arrowdown") ∧
          r3.1.isSliding = false ∧ r3.1.isJumping = false then
        ({ r3.1 with isSliding := true, slideTimer := 50 }, [Event.audioSlide])
      else (r3.1, [])
    (r4.1, r1.2 ++ r2.2 ++ r3.2 ++ r4.2)

/-- Chunk zStart values laid down by the initialisation loop
`for i in 0..7: spawnFloorChunk(-i * CHUNK_LENGTH)`. -/
def initialFloorChunks : List ℚ := [0, -20, -40, -60, -80, -100, -120, -140]

/-- `resetGame`: reinitialises the singleton refs, empties the entity lists,
regenerates the initial chunk window and puts the player back at the origin.
(It does not touch `gameActiveRef` or `slideTimerRef`.) -/
def resetGame (s : GState) : GState :=
  { s with score := 0, speed := PLAYER_SPEED_BASE, lane := 1, currentLaneX := 0,
           velY := 0, jumpY := 0, isJumping := false, isSliding := false,
           playerZ := 0, coins := [], obstacles := [], scenery := [],
           floorChunks := initialFloorChunks, lastSpawnZ := -140 }

-- Per-tick sub-computations of the loop body, named so theorems can refer to
-- the intermediate values the source holds in refs mid-tick.

/-- Speed ramp: `if (speed < MAX_SPEED) speed += 0.00005`. -/
def tickSpeed (s : GState) : ℚ :=
  if s.speed < MAX_SPEED then s.speed + SPEED_INCREMENT else s.speed

/-- Forward motion: `player.position.z -= speed` (with the updated speed). -/
def tickPlayerZ (s : GState) : ℚ := s.playerZ - tickSpeed s

/-- Lane target world offset: `(lane - 1) * LANE_WIDTH`. -/
def tickTargetX (s : GState) : ℚ := ((s.lane : ℚ) - 1) * LANE_WIDTH

/-- Lateral easing: `currentLaneX += (targetX - currentLaneX) * LANE_CHANGE_SPEED`. -/
def tickLaneX (s : GState) : ℚ :=
  s.currentLaneX + (tickTargetX s - s.currentLaneX) * LANE_CHANGE_SPEED

/-- Jump physics: returns the updated (jumpY, velY, isJumping).  The offset is
integrated first, then gravity, then the landing clamp to exactly 0. -/
def tickJump (s : GState) : ℚ × ℚ × Bool :=
  if s.isJumping then
    let jy := s.jumpY + s.velY
    if jy ≤ 0 then (0, 0, false) else (jy, s.velY - GRAVITY, true)
  else (s.jumpY, s.velY, s.isJumping)

/-- Slide timer: returns the updated (isSliding, slideTimer).  The timer is
decremented and the pose ends when it reaches 0 or below. -/
def tickSlide (s : GState) : Bool × ℤ :=
  if s.isSliding then
    let t := s.slideTimer - 1
    if t ≤ 0 then (false, t) else (true, t)
  else (s.isSliding, s.slideTimer)

/-- Cull threshold: `player.position.z + 20` (with the updated z). -/
def tickCullZ (s : GState) : ℚ := tickPlayerZ s + 20

/-- Spawn threshold: `Math.floor(z / CHUNK_LENGTH) * CHUNK_LENGTH - 120`. -/
def tickNextSpawnZ (s : GState) : ℚ :=
  ((⌊tickPlayerZ s / CHUNK_LENGTH⌋ : ℤ) : ℚ) * CHUNK_LENGTH - 120

/-- Whether this tick crosses the spawn threshold. -/
def tickDoSpawn (s : GState) : Bool := decide (s.lastSpawnZ > tickNextSpawnZ s)

/-- Coin list entering the collision phase (spawned entities included). -/
def tickCoins0 (o : Oracle) (s : GState) : List Coin :=
  if tickDoSpawn s then s.coins ++ o.newCoins else s.coins

/-- Obstacle list entering the collision phase (spawned entities included). -/
def tickObstacles0 (o : Oracle) (s : GState) : List Obstacle :=
  if tickDoSpawn s then s.obstacles ++ o.newObstacles else s.obstacles

/-- Scenery list entering the cull phase (spawned entities included). -/
def tickScenery0 (o : Oracle) (s : GState) : List ℚ :=
  if tickDoSpawn s then s.scenery ++ o.newScenery else s.scenery

/-- Whether a coin's box (as reported this frame) intersects the player box. -/
def coinCollides (o : Oracle) (playerBox : Box3) (c : Coin) : Bool :=
  (o.coinBox c.id).intersects playerBox

/-- The coin filter of the loop: on intersection add 10 to score, report the
new score, emit the collect cue and drop the coin; otherwise silently drop
coins behind the cull threshold; keep the rest. -/
def coinPhase (o : Oracle) (playerBox : Box3) (cullZ : ℚ) :
    ℕ → List Coin → ℕ × List Event × List Coin
  | score, [] => (score, [], [])
  | score, c :: rest =>
    if coinCollides o playerBox c then
      let r := coinPhase o playerBox cullZ (score + 10) rest
      (r.1, Event.scoreUpdate (score + 10) :: Event.audioCoin :: r.2.1, r.2.2)
    else if c.posZ > cullZ then
      coinPhase o playerBox cullZ score rest
    else
      let r := coinPhase o playerBox cullZ score rest
      (r.1, r.2.1, c :: r.2.2)

/-- The per-obstacle hit decision: nothing happens unless the shrunk obstacle
box intersects the player box; on intersection the hit stands unless a low
obstacle is cleared (`relativePlayerY > 1.2`) or a high obstacle is ducked
(`isSliding && relativePlayerY < 1`). -/
def obstacleHit (o : Oracle) (playerBox : Box3) (playerY : ℚ) (sliding : Bool)
    (ob : Obstacle) : Bool :=
  if (shrinkObstacleBox (o.obstacleBox ob.id)).intersects playerBox then
    let relativePlayerY := playerY - ob.posY
    match ob.type with
    | EntityType.OBSTACLE_LOW => !(decide (relativePlayerY > mkRat 6 5))
    | EntityType.OBSTACLE_HIGH => !(sliding && decide (relativePlayerY < 1))
  else false

/-- The obstacle `forEach` of the loop: each hit fires the crash and whine
cues, reports the final score through `onGameOver`, and clears the active
flag; the iteration continues over the remaining obstacles. -/
def obstaclePhase (o : Oracle) (playerBox : Box3) (playerY : ℚ) (sliding : Bool)
    (score : ℕ) : Bool → List Obstacle → Bool × List Event
  | a, [] => (a, [])
  | a, ob :: rest =>
    if obstacleHit o playerBox playerY sliding ob then
      let r := obstaclePhase o playerBox playerY sliding score false rest
      (r.1, Event.audioCrash :: Event.audioWhine :: Event.gameOver score :: r.2)
    else obstaclePhase o playerBox playerY sliding score a rest

/-- One iteration of the `requestAnimationFrame` loop body; when the active
flag is down the tick leaves the simulation state untouched and emits nothing
(the else branch of the source only animates the menu pose). -/
def loopTick (o : Oracle) (s : GState) : GState × List Event :=
  if s.active = false then (s, [])
  else
    let playerBox := shrinkPlayerBox o.rawPlayerBox
    let cullZ := tickCullZ s
    let floorChunks1 := s.floorChunks.filter (fun z => !(decide (z - 10 > cullZ)))
    let floorChunks :=
      if tickDoSpawn s then floorChunks1 ++ [s.lastSpawnZ - CHUNK_LENGTH]
      else floorChunks1
    let lastSpawnZ :=
      if tickDoSpawn s then s.lastSpawnZ - CHUNK_LENGTH else s.lastSpawnZ
    let cp := coinPhase o playerBox cullZ s.score (tickCoins0 o s)
    let op := obstaclePhase o playerBox (tickJump s).1 (tickSlide s).1 cp.1 true
      (tickObstacles0 o s)
    ({ score := cp.1,
       speed := tickSpeed s,
       lane := s.lane,
       currentLaneX := tickLaneX s,
       velY := (tickJump s).2.1,
       jumpY := (tickJump s).1,
       isJumping := (tickJump s).2.2,
       isSliding := (tickSlide s).1,
       slideTimer := (tickSlide s).2,
       active := op.1,
       playerZ := tickPlayerZ s,
       lastSpawnZ := lastSpawnZ,
       coins := cp.2.2,
       obstacles := (tickObstacles0 o s).filter (fun ob => decide (ob.posZ ≤ cullZ)),
       scenery := (tickScenery0 o s).filter (fun z => decide (z ≤ cullZ)),
       floorChunks := floorChunks }, cp.2.1 ++ op.2)

/-- An externally driven step: a keydown or one animation frame. -/
inductive Act where
  | key (k : String)
  | frame (o : Oracle)

/-- The state reached after one act. -/
def stepAct (a : Act) (s : GState) : GState :=
  match a with
  | Act.key k => (handleInput k s).1
  | Act.frame o => (loopTick o s).1

/-- The state reached after a sequence of acts. -/
def runActs (acts : List Act) (s : GState) : GState :=
  acts.foldl (fun st a => stepAct a st) s

/-- The key aliases for a lane-left input. -/
def isLeftKey (k : String) : Prop := lowerStr k = "a" ∨ lowerStr k = "arrowleft"

/-- The key aliases for a lane-right input. -/
def isRightKey (k : String) : Prop := lowerStr k = "d" ∨ lowerStr k = "arrowright"

/-- The key aliases for a jump input. -/
def isJumpKey (k : String) : Prop :=
  lowerStr k = "w" ∨ lowerStr k = "arrowup" ∨ lowerStr k = " "

/-- The key aliases for a slide input. -/
def isSlideKey (k : String) : Prop := lowerStr k = "s" ∨ lowerStr k = "arrowdown"

/-- Whether an event is an `onGameOver` invocation. -/
def isGameOverEvent : Event → Bool
  | Event.gameOver _ => true
  | _ => false

/-- How many times `onGameOver` is invoked in an event list. -/
def gameOverCount (evs : List Event) : ℕ := (evs.filter isGameOverEvent).length

/-- Off the Jumping pose, the vertical offset is 0. -/
def groundInv (s : GState) : Prop := s.isJumping = false → s.jumpY = 0

/-- The default Running pose: neither Jumping nor Sliding. -/
def running (s : GState) : Bool := !s.isJumping && !s.isSliding

/-- How many of the three poses (Running, Jumping, Sliding) currently hold. -/
def poseCount (s : GState) : ℕ :=
  (cond s.isJumping 1 0) + (cond s.isSliding 1 0) + (cond (running s) 1 0)


/-- The lane index is one of the three lanes 0, 1, 2. -/
def laneInv (s : GState) : Prop := 0 ≤ s.lane ∧ s.lane ≤ 2

-- The speed ramp in the source's own arithmetic.  `speedRef` is a JavaScript
-- number, an IEEE-754 binary64 value, so `if (speed < MAX_SPEED) speed +=
-- 0.00005` adds the binary64 neighbour of 0.00005 and rounds the sum to 53
-- significant bits (to nearest, ties to even).  Every value the ramp visits
-- lies in [1/4, 1), where a binary64 value is an integer multiple of 2^-67,
-- so the ramp is embedded exactly as integers at scale 2^-67.

/-- 0.25 at scale 2^-67 (0.25 is exactly representable): 2^65. -/
def PLAYER_SPEED_BASE_FP : ℤ := 36893488147419103232

/-- The binary64 value nearest 0.00005, at scale 2^-67: round(2^67/20000). -/
def SPEED_INCREMENT_FP : ℤ := 7378697629483821

/-- The binary64 value nearest 0.6, at scale 2^-67: round(0.6 * 2^53) * 2^14
(it is 0.59999999999999997779…, just below 0.6). -/
def MAX_SPEED_FP : ℤ := 88544371553805844480

/-- The rounding grid of a binary64 result at scale 2^-67: values below 1/2
(2^66 at this scale) have ulp 2^-54 (step 2^13), values in [1/2, 1) have ulp
2^-53 (step 2^14). -/
def fpGrid (n : ℤ) : ℤ := if n < 73786976294838206464 then 8192 else 16384

/-- Round `n` to the nearest multiple of `g`, ties to even — the IEEE-754
round-to-nearest-even rule on the grid `g`. -/
def roundHalfEvenMul (g n : ℤ) : ℤ :=
  if g / 2 < n % g then (n / g + 1) * g
  else if n % g < g / 2 then n / g * g
  else if n / g % 2 = 0 then n / g * g
  else (n / g + 1) * g

/-- Round an exact sum (scale 2^-67) to the binary64 grid of its magnitude. -/
def fpRound (n : ℤ) : ℤ := roundHalfEvenMul (fpGrid n) n

/-- The binary64 semantics of the speed ramp line
`if (speed < MAX_SPEED) speed += 0.00005`: compare against the binary64
maximum and, if below, add the binary64 increment and round the sum. -/
def tickSpeedFP (n : ℤ) : ℤ :=
  if n < MAX_SPEED_FP then fpRound (n + SPEED_INCREMENT_FP) else n

/-- The binary64 speed after `k` active ticks from the base speed. -/
def speedSeqFP : ℕ → ℤ
  | 0 => PLAYER_SPEED_BASE_FP
  | k + 1 => tickSpeedFP (speedSeqFP k)

/-- Decode a scale-2^-67 integer back to the rational value it represents. -/
def fpVal (n : ℤ) : ℚ := (n : ℚ) / 2 ^ 67

-- Concrete fixtures used to instantiate the theorems on explicit inputs.

/-- A large bounding box for fixture entities. -/
def bigBox : Box3 := ⟨-100, 100, -100, 100, -100, 100⟩

/-- A fixture raw player bounding box around the origin. -/
def playerRawBox : Box3 := ⟨-1, 1, 0, 2, -1, 1⟩

/-- A fixture oracle: every entity reports a large box, nothing is spawned. -/
def witOracle : Oracle :=
  { rawPlayerBox := playerRawBox,
    coinBox := fun _ => bigBox,
    obstacleBox := fun _ => bigBox,
    newCoins := [], newObstacles := [], newScenery := [] }

/-- A fixture baseline state: a fresh active run. -/
def witState : GState :=
  { score := 0, speed := PLAYER_SPEED_BASE, lane := 1, currentLaneX := 0,
    velY := 0, jumpY := 0, isJumping := false, isSliding := false,
    slideTimer := 0, active := true, playerZ := 0, lastSpawnZ := -140,
    coins := [], obstacles := [], scenery := [],
    floorChunks := initialFloorChunks }

/-- The baseline state with the active flag down. -/
def witInactiveState : GState := { witState with active := false }

/-- The baseline state at the leftmost lane. -/
def witLane0 : GState := { witState with lane := 0 }

/-- The baseline state at the rightmost lane. -/
def witLane2 : GState := { witState with lane := 2 }

/-- The baseline state mid-jump at the landing instant. -/
def witJumpState : GState := { witState with isJumping := true }

/-- The baseline state sliding with an expiring timer. -/
def witSlideState : GState := { witState with isSliding := true, slideTimer := 1 }

/-- A fixture low obstacle at ground level ahead of the player. -/
def witLowOb : Obstacle := ⟨0, EntityType.OBSTACLE_LOW, 0, -10⟩

/-- A fixture high obstacle at ground level ahead of the player. -/
def witHighOb : Obstacle := ⟨0, EntityType.OBSTACLE_HIGH, 0, -10⟩

/-- The baseline state facing the fixture low obstacle. -/
def witLowState : GState := { witState with obstacles := [witLowOb] }

/-- The baseline state facing the fixture high obstacle. -/
def witHighState : GState := { witState with obstacles := [witHighOb] }

/-- A fixture collectible. -/
def witCoin : Coin := ⟨0, -10⟩

/-- The baseline state facing the fixture collectible. -/
def witCoinState : GState := { witState with coins := [witCoin] }

/-- A state whose hitbox overlaps two unavoided obstacles in the same tick:
two high obstacles at the same depth in adjacent lanes while not sliding. -/
def cexTwoObstacles : GState :=
  { witState with obstacles :=
      [⟨0, EntityType.OBSTACLE_HIGH, 0, -10⟩, ⟨1, EntityType.OBSTACLE_HIGH, 0, -10⟩] }


-- Characterisation of `handleInput`, one lemma per key family.

lemma handleInput_inactive (k : String) (s : GState) (h : s.active = false) :
    handleInput k s = (s, []) := by
  simp [handleInput, h]

lemma handleInput_left (k : String) (s : GState) (hk : isLeftKey k)
    (ha : s.active = true) :
    handleInput k s =
      if 0 < s.lane then ({ s with lane := s.lane - 1 }, [Event.audioSlide])
      else (s, []) := by
  rcases hk with hk | hk <;> by_cases hl : 0 < s.lane <;>
    simp [handleInput, hk, ha, hl]

lemma handleInput_right (k : String) (s : GState) (hk : isRightKey k)
    (ha : s.active = true) :
    handleInput k s =
      if s.lane < 2 then ({ s with lane := s.lane + 1 }, [Event.audioSlide])
      else (s, []) := by
  rcases hk with hk | hk <;> by_cases hl : s.lane < 2 <;>
    simp [handleInput, hk, ha, hl]

lemma handleInput_jump (k : String) (s : GState) (hk : isJumpKey k)
    (ha : s.active = true) :
    handleInput k s =
      if s.isJumping = false ∧ s.isSliding = false then
        ({ s with isJumping := true, velY := JUMP_FORCE }, [Event.audioJump])
      else (s, []) := by
  rcases hk with hk | hk | hk <;>
    by_cases hj : s.isJumping = false ∧ s.isSliding = false <;>
      simp [handleInput, hk, ha, hj]

lemma handleInput_slide (k : String) (s : GState) (hk : isSlideKey k)
    (ha : s.active = true) :
    handleInput k s =
      if s.isSliding = false ∧ s.isJumping = false then
        ({ s with isSliding := true, slideTimer := 50 }, [Event.audioSlide])
      else (s, []) := by
  rcases hk with hk | hk <;>
    by_cases hj : s.isSliding = false ∧ s.isJumping = false <;>
      simp [handleInput, hk, ha, hj]

lemma handleInput_other (k : String) (s : GState)
    (hk : ¬isLeftKey k ∧ ¬isRightKey k ∧ ¬isJumpKey k ∧ ¬isSlideKey k) :
    handleInput k s = (s, []) := by
  obtain ⟨h1, h2, h3, h4⟩ := hk
  simp only [isLeftKey, not_or] at h1
  simp only [isRightKey, not_or] at h2
  simp only [isJumpKey, not_or] at h3
  simp only [isSlideKey, not_or] at h4
  by_cases ha : s.active = true
  · simp [handleInput, ha, h1.1, h1.2, h2.1, h2.2, h3.1, h3.2.1, h3.2.2, h4.1, h4.2]
  · exact handleInput_inactive k s (by simpa using ha)

/-- Every keydown either leaves the state untouched or performs exactly one
of the four accepted transitions, each guarded as in the source. -/
lemma handleInput_shape (k : String) (s : GState) :
    handleInput k s = (s, []) ∨
    (handleInput k s = ({ s with lane := s.lane - 1 }, [Event.audioSlide]) ∧
      0 < s.lane) ∨
    (handleInput k s = ({ s with lane := s.lane + 1 }, [Event.audioSlide]) ∧
      s.lane < 2) ∨
    (handleInput k s =
        ({ s with isJumping := true, velY := JUMP_FORCE }, [Event.audioJump]) ∧
      s.isJumping = false ∧ s.isSliding = false) ∨
    (handleInput k s =
        ({ s with isSliding := true, slideTimer := 50 }, [Event.audioSlide]) ∧
      s.isSliding = false ∧ s.isJumping = false) := by
  by_cases ha : s.active = true
  · by_cases hL : isLeftKey k
    · rw [handleInput_left k s hL ha]
      by_cases hl : 0 < s.lane <;> simp [hl]
    · by_cases hR : isRightKey k
      · rw [handleInput_right k s hR ha]
        by_cases hl : s.lane < 2 <;> simp [hl]
      · by_cases hJ : isJumpKey k
        · rw [handleInput_jump k s hJ ha]
          by_cases hj : s.isJumping = false ∧ s.isSliding = false <;>
            simp [hj]
        · by_cases hS : isSlideKey k
          · rw [handleInput_slide k s hS ha]
            by_cases hj : s.isSliding = false ∧ s.isJumping = false <;>
              simp [hj]
          · exact Or.inl (handleInput_other k s ⟨hL, hR, hJ, hS⟩)
  · exact Or.inl (handleInput_inactive k s (by simpa using ha))

-- Structure of the two collision phases.

lemma gameOverCount_append (a b : List Event) :
    gameOverCount (a ++ b) = gameOverCount a + gameOverCount b := by
  simp [gameOverCount, List.filter_append]

lemma obstaclePhase_fst (o : Oracle) (pb : Box3) (py : ℚ) (sl : Bool) (sc : ℕ) :
    ∀ (obs : List Obstacle) (a : Bool),
      (obstaclePhase o pb py sl sc a obs).1 =
        (a && !(obs.any (obstacleHit o pb py sl))) := by
  intro obs
  induction obs with
  | nil => intro a; simp [obstaclePhase]
  | cons ob rest ih =>
    intro a
    by_cases h : obstacleHit o pb py sl ob = true <;>
      simp [obstaclePhase, h, ih]

lemma obstaclePhase_events (o : Oracle) (pb : Box3) (py : ℚ) (sl : Bool) (sc : ℕ) :
    ∀ (obs : List Obstacle) (a : Bool),
      (obstaclePhase o pb py sl sc a obs).2 =
        (obstaclePhase o pb py sl sc true obs).2 ∧
      gameOverCount (obstaclePhase o pb py sl sc a obs).2 =
        (obs.filter (obstacleHit o pb py sl)).length ∧
      ∀ e ∈ (obstaclePhase o pb py sl sc a obs).2,
        isGameOverEvent e = true → e = Event.gameOver sc := by
  intro obs
  induction obs with
  | nil => intro a; simp [obstaclePhase, gameOverCount]
  | cons ob rest ih =>
    intro a
    by_cases h : obstacleHit o pb py sl ob = true
    · have h1 := (ih false).1
      have h2 := (ih false).2.1
      have h3 := (ih false).2.2
      refine ⟨?_, ?_, ?_⟩
      · simp [obstaclePhase, h]
      · simp only [obstaclePhase, h, if_true, List.filter_cons, gameOverCount,
          List.filter, isGameOverEvent]
        simp only [gameOverCount] at h2
        simp [h2]
      · intro e he hgo
        simp only [obstaclePhase, h, if_true, List.mem_cons] at he
        rcases he with rfl | rfl | rfl | he
        · simp [isGameOverEvent] at hgo
        · simp [isGameOverEvent] at hgo
        · rfl
        · exact h3 e he hgo
    · refine ⟨?_, ?_, ?_⟩
      · simpa [obstaclePhase, h] using (ih a).1
      · simpa [obstaclePhase, h, List.filter_cons] using (ih a).2.1
      · intro e he hgo
        simp only [obstaclePhase, h, if_neg, Bool.false_eq_true, if_false] at he
        exact (ih a).2.2 e he hgo

lemma coinPhase_noGameOver (o : Oracle) (pb : Box3) (cz : ℚ) :
    ∀ (cs : List Coin) (sc : ℕ),
      ∀ e ∈ (coinPhase o pb cz sc cs).2.1, isGameOverEvent e = false := by
  intro cs
  induction cs with
  | nil => intro sc; simp [coinPhase]
  | cons c rest ih =>
    intro sc e he
    by_cases h : coinCollides o pb c = true
    · simp only [coinPhase, h, if_true, List.mem_cons] at he
      rcases he with rfl | rfl | he
      · simp [isGameOverEvent]
      · simp [isGameOverEvent]
      · exact ih (sc + 10) e he
    · by_cases hz : c.posZ > cz
      · simp only [coinPhase, h, if_false, hz, if_true] at he
        exact ih sc e he
      · simp only [coinPhase, h, if_false, hz, if_true] at he
        exact ih sc e he

/-- When no coin intersects the player box, the coin phase changes no score,
emits nothing, and keeps exactly the coins ahead of the cull threshold. -/
lemma coinPhase_none (o : Oracle) (pb : Box3) (cz : ℚ) :
    ∀ (cs : List Coin) (sc : ℕ),
      cs.filter (fun x => coinCollides o pb x) = [] →
      coinPhase o pb cz sc cs =
        (sc, [], cs.filter (fun x => !coinCollides o pb x && !(decide (x.posZ > cz)))) := by
  intro cs
  induction cs with
  | nil => intro sc _; simp [coinPhase]
  | cons c rest ih =>
    intro sc hnone
    rw [List.filter_cons] at hnone
    by_cases h : coinCollides o pb c = true
    · simp [h] at hnone
    · simp only [h] at hnone
      by_cases hz : c.posZ > cz <;>
        simp [coinPhase, h, hz, ih sc (by simpa using hnone)]

/-- When exactly one coin in the list intersects the player box, the coin
phase adds exactly 10 to the score, reports the new score once, emits one
collect cue, and keeps exactly the non-colliding coins ahead of the cull
threshold (in particular the collected coin is removed). -/
lemma coinPhase_single (o : Oracle) (pb : Box3) (cz : ℚ) :
    ∀ (cs : List Coin) (sc : ℕ) (c : Coin),
      cs.filter (fun x => coinCollides o pb x) = [c] →
      coinPhase o pb cz sc cs =
        (sc + 10, [Event.scoreUpdate (sc + 10), Event.audioCoin],
         cs.filter (fun x => !coinCollides o pb x && !(decide (x.posZ > cz)))) := by
  intro cs
  induction cs with
  | nil => intro sc c h; simp at h
  | cons c0 rest ih =>
    intro sc c hone
    rw [List.filter_cons] at hone
    by_cases h : coinCollides o pb c0 = true
    · simp only [h, if_true] at hone
      have hrest : rest.filter (fun x => coinCollides o pb x) = [] := by
        simpa using congrArg List.tail hone
      simp [coinPhase, h, coinPhase_none o pb cz rest (sc + 10) hrest]
    · simp only [h] at hone
      by_cases hz : c0.posZ > cz <;>
        simp [coinPhase, h, hz, ih sc c (by simpa using hone)]

-- Projections of one active tick (the inactive tick is the identity).

lemma loopTick_inactive (o : Oracle) (s : GState) (h : s.active = false) :
    loopTick o s = (s, []) := by
  simp [loopTick, h]

lemma loopTick_speed (o : Oracle) (s : GState) (ha : s.active = true) :
    ((loopTick o s).1).speed = tickSpeed s := by
  simp [loopTick, ha]

lemma loopTick_lane (o : Oracle) (s : GState) (ha : s.active = true) :
    ((loopTick o s).1).lane = s.lane := by
  simp [loopTick, ha]

lemma loopTick_jumpY (o : Oracle) (s : GState) (ha : s.active = true) :
    ((loopTick o s).1).jumpY = (tickJump s).1 := by
  simp [loopTick, ha]

lemma loopTick_velY (o : Oracle) (s : GState) (ha : s.active = true) :
    ((loopTick o s).1).velY = (tickJump s).2.1 := by
  simp [loopTick, ha]

lemma loopTick_isJumping (o : Oracle) (s : GState) (ha : s.active = true) :
    ((loopTick o s).1).isJumping = (tickJump s).2.2 := by
  simp [loopTick, ha]

lemma loopTick_isSliding (o : Oracle) (s : GState) (ha : s.active = true) :
    ((loopTick o s).1).isSliding = (tickSlide s).1 := by
  simp [loopTick, ha]

lemma loopTick_score (o : Oracle) (s : GState) (ha : s.active = true) :
    ((loopTick o s).1).score =
      (coinPhase o (shrinkPlayerBox o.rawPlayerBox) (tickCullZ s) s.score
        (tickCoins0 o s)).1 := by
  simp [loopTick, ha]

lemma loopTick_coins (o : Oracle) (s : GState) (ha : s.active = true) :
    ((loopTick o s).1).coins =
      (coinPhase o (shrinkPlayerBox o.rawPlayerBox) (tickCullZ s) s.score
        (tickCoins0 o s)).2.2 := by
  simp [loopTick, ha]

lemma loopTick_obstacles (o : Oracle) (s : GState) (ha : s.active = true) :
    ((loopTick o s).1).obstacles =
      (tickObstacles0 o s).filter (fun ob => decide (ob.posZ ≤ tickCullZ s)) := by
  simp [loopTick, ha]

lemma loopTick_activeFlag (o : Oracle) (s : GState) (ha : s.active = true) :
    ((loopTick o s).1).active =
      (obstaclePhase o (shrinkPlayerBox o.rawPlayerBox) (tickJump s).1
        (tickSlide s).1
        (coinPhase o (shrinkPlayerBox o.rawPlayerBox) (tickCullZ s) s.score
          (tickCoins0 o s)).1
        true (tickObstacles0 o s)).1 := by
  simp [loopTick, ha]

lemma loopTick_events (o : Oracle) (s : GState) (ha : s.active = true) :
    (loopTick o s).2 =
      (coinPhase o (shrinkPlayerBox o.rawPlayerBox) (tickCullZ s) s.score
        (tickCoins0 o s)).2.1 ++
      (obstaclePhase o (shrinkPlayerBox o.rawPlayerBox) (tickJump s).1
        (tickSlide s).1
        (coinPhase o (shrinkPlayerBox o.rawPlayerBox) (tickCullZ s) s.score
          (tickCoins0 o s)).1
        true (tickObstacles0 o s)).2 := by
  simp [loopTick, ha]

lemma runActs_nil (s : GState) : runActs [] s = s := rfl

lemma runActs_cons (a : Act) (acts : List Act) (s : GState) :
    runActs (a :: acts) s = runActs acts (stepAct a s) := rfl

-- The grounded-pose invariant: when the Jumping flag is down the jump offset
-- is exactly 0 (the landing branch clamps it and reset zeroes it).

lemma tickJump_ground (s : GState) (h : groundInv s) :
    (tickJump s).2.2 = false → (tickJump s).1 = 0 := by
  by_cases hj : s.isJumping = true
  · by_cases hle : s.jumpY + s.velY ≤ 0 <;> simp [tickJump, hj, hle]
  · have hj0 : s.isJumping = false := by simpa using hj
    intro _
    simpa [tickJump, hj0] using h hj0

lemma groundInv_tick (o : Oracle) (s : GState) (h : groundInv s) :
    groundInv ((loopTick o s).1) := by
  by_cases ha : s.active = true
  · intro hJ
    rw [loopTick_isJumping o s ha] at hJ
    rw [loopTick_jumpY o s ha]
    exact tickJump_ground s h hJ
  · have ha0 : s.active = false := by simpa using ha
    rw [loopTick_inactive o s ha0]
    exact h

lemma groundInv_input (k : String) (s : GState) (h : groundInv s) :
    groundInv ((handleInput k s).1) := by
  rcases handleInput_shape k s with h0 | ⟨h0, _⟩ | ⟨h0, _⟩ | ⟨h0, _, _⟩ | ⟨h0, _, _⟩ <;>
    rw [h0] <;> intro hJ <;> simp_all [groundInv]

lemma groundInv_step (a : Act) (s : GState) (h : groundInv s) :
    groundInv (stepAct a s) := by
  cases a with
  | key k => exact groundInv_input k s h
  | frame o => exact groundInv_tick o s h

lemma groundInv_run (acts : List Act) (s : GState) (h : groundInv s) :
    groundInv (runActs acts s) := by
  induction acts generalizing s with
  | nil => exact h
  | cons a rest ih => rw [runActs_cons]; exact ih (stepAct a s) (groundInv_step a s h)

-- Pose exclusivity: the Running pose is the absence of the two flags, and the
-- two flags are never simultaneously set.

lemma poseCount_eq_one_iff (s : GState) :
    poseCount s = 1 ↔ ¬(s.isJumping = true ∧ s.isSliding = true) := by
  cases hJ : s.isJumping <;> cases hS : s.isSliding <;>
    simp [poseCount, running, hJ, hS]

lemma tickJump_flag (s : GState) :
    (tickJump s).2.2 = true → s.isJumping = true := by
  by_cases hj : s.isJumping = true
  · intro _; exact hj
  · have hj0 : s.isJumping = false := by simpa using hj
    simp [tickJump, hj0]

lemma tickSlide_flag (s : GState) :
    (tickSlide s).1 = true → s.isSliding = true := by
  by_cases hs : s.isSliding = true
  · intro _; exact hs
  · have hs0 : s.isSliding = false := by simpa using hs
    simp [tickSlide, hs0]

lemma poseCount_tick (o : Oracle) (s : GState) (h : poseCount s = 1) :
    poseCount ((loopTick o s).1) = 1 := by
  by_cases ha : s.active = true
  · rw [poseCount_eq_one_iff] at h ⊢
    rw [loopTick_isJumping o s ha, loopTick_isSliding o s ha]
    intro ⟨hJ, hS⟩
    exact h ⟨tickJump_flag s hJ, tickSlide_flag s hS⟩
  · have ha0 : s.active = false := by simpa using ha
    rw [loopTick_inactive o s ha0]
    exact h

lemma poseCount_input (k : String) (s : GState) (h : poseCount s = 1) :
    poseCount ((handleInput k s).1) = 1 := by
  rw [poseCount_eq_one_iff] at h ⊢
  rcases handleInput_shape k s with h0 | ⟨h0, _⟩ | ⟨h0, _⟩ | ⟨h0, hJ, hS⟩ |
      ⟨h0, hS, hJ⟩ <;> rw [h0] <;> simp_all

lemma poseCount_step (a : Act) (s : GState) (h : poseCount s = 1) :
    poseCount (stepAct a s) = 1 := by
  cases a with
  | key k => exact poseCount_input k s h
  | frame o => exact poseCount_tick o s h

lemma poseCount_run (acts : List Act) (s : GState) (h : poseCount s = 1) :
    poseCount (runActs acts s) = 1 := by
  induction acts generalizing s with
  | nil => exact h
  | cons a rest ih => rw [runActs_cons]; exact ih (stepAct a s) (poseCount_step a s h)

-- The speed ramp: reachable speeds are exactly `base + k * increment` for
-- `k ≤ 7000`, and `base + 7000 * increment = max` exactly.

lemma SPEED_INCREMENT_eq : SPEED_INCREMENT = 1/20000 := by
  rw [SPEED_INCREMENT, Rat.mkRat_eq_div]; norm_num

lemma tickSpeed_ge (s : GState) : s.speed ≤ tickSpeed s := by
  rw [tickSpeed]
  by_cases hlt : s.speed < MAX_SPEED
  · rw [if_pos hlt]
    have : (0:ℚ) < SPEED_INCREMENT := by rw [SPEED_INCREMENT_eq]; norm_num
    linarith
  · rw [if_neg hlt]

lemma handleInput_speed (k : String) (s : GState) :
    ((handleInput k s).1).speed = s.speed := by
  rcases handleInput_shape k s with h0 | ⟨h0, _⟩ | ⟨h0, _⟩ | ⟨h0, _, _⟩ |
      ⟨h0, _, _⟩ <;> rw [h0]

lemma stepAct_speed_ge (a : Act) (s : GState) : s.speed ≤ (stepAct a s).speed := by
  cases a with
  | key k => rw [stepAct, handleInput_speed]
  | frame o =>
    by_cases ha : s.active = true
    · rw [stepAct, loopTick_speed o s ha]; exact tickSpeed_ge s
    · have ha0 : s.active = false := by simpa using ha
      rw [stepAct, loopTick_inactive o s ha0]


lemma runActs_speed_ge (acts : List Act) (s : GState) :
    s.speed ≤ (runActs acts s).speed := by
  induction acts generalizing s with
  | nil => rw [runActs_nil]
  | cons a rest ih =>
    rw [runActs_cons]
    exact le_trans (stepAct_speed_ge a s) (ih (stepAct a s))

-- The binary64 speed ramp: rounding bounds, per-step behaviour, and the
-- exact trajectory checkpoints (evaluated in 100-tick chunks).

lemma fpRound_bounds (n : ℤ) : n - 8192 ≤ fpRound n ∧ fpRound n ≤ n + 8192 := by
  unfold fpRound fpGrid roundHalfEvenMul
  split_ifs <;> omega

lemma tickSpeedFP_ge (n : ℤ) : n ≤ tickSpeedFP n := by
  unfold tickSpeedFP
  split_ifs with h
  · have := (fpRound_bounds (n + SPEED_INCREMENT_FP)).1
    unfold SPEED_INCREMENT_FP at *
    omega
  · exact le_refl n

lemma tickSpeedFP_step (n : ℤ) (h : n < MAX_SPEED_FP) :
    n + SPEED_INCREMENT_FP - 8192 ≤ tickSpeedFP n ∧
      tickSpeedFP n ≤ n + SPEED_INCREMENT_FP + 8192 := by
  unfold tickSpeedFP
  rw [if_pos h]
  exact fpRound_bounds (n + SPEED_INCREMENT_FP)

lemma tickSpeedFP_stable (n : ℤ) (h : MAX_SPEED_FP ≤ n) : tickSpeedFP n = n := by
  unfold tickSpeedFP
  rw [if_neg (by omega)]

lemma speedSeqFP_iterate (k : ℕ) :
    speedSeqFP k = tickSpeedFP^[k] PLAYER_SPEED_BASE_FP := by
  induction k with
  | zero => rfl
  | succ k ih => rw [speedSeqFP, ih, Function.iterate_succ_apply']

lemma iterate_chain (f : ℤ → ℤ) (a b n : ℕ) (x y z : ℤ) (hn : n = b + a)
    (h1 : f^[a] x = y) (h2 : f^[b] y = z) : f^[n] x = z := by
  subst hn
  rw [Function.iterate_add_apply, h1, h2]

set_option maxRecDepth 20000 in
lemma speedSeqFP_vals :
    speedSeqFP 7000 = 88544371553800159232 ∧ speedSeqFP 7001 = 88551750251429642240 := by
  have h1 : tickSpeedFP^[100] (36893488147419103232 : ℤ) = 37631357910367404032 := by decide
  have h2 : tickSpeedFP^[100] (37631357910367404032 : ℤ) = 38369227673315704832 := by decide
  have h3 : tickSpeedFP^[100] (38369227673315704832 : ℤ) = 39107097436264005632 := by decide
  have h4 : tickSpeedFP^[100] (39107097436264005632 : ℤ) = 39844967199212306432 := by decide
  have h5 : tickSpeedFP^[100] (39844967199212306432 : ℤ) = 40582836962160607232 := by decide
  have h6 : tickSpeedFP^[100] (40582836962160607232 : ℤ) = 41320706725108908032 := by decide
  have h7 : tickSpeedFP^[100] (41320706725108908032 : ℤ) = 42058576488057208832 := by decide
  have h8 : tickSpeedFP^[100] (42058576488057208832 : ℤ) = 42796446251005509632 := by decide
  have h9 : tickSpeedFP^[100] (42796446251005509632 : ℤ) = 43534316013953810432 := by decide
  have h10 : tickSpeedFP^[100] (43534316013953810432 : ℤ) = 44272185776902111232 := by decide
  have h11 : tickSpeedFP^[100] (44272185776902111232 : ℤ) = 45010055539850412032 := by decide
  have h12 : tickSpeedFP^[100] (45010055539850412032 : ℤ) = 45747925302798712832 := by decide
  have h13 : tickSpeedFP^[100] (45747925302798712832 : ℤ) = 46485795065747013632 := by decide
  have h14 : tickSpeedFP^[100] (46485795065747013632 : ℤ) = 47223664828695314432 := by decide
  have h15 : tickSpeedFP^[100] (47223664828695314432 : ℤ) = 47961534591643615232 := by decide
  have h16 : tickSpeedFP^[100] (47961534591643615232 : ℤ) = 48699404354591916032 := by decide
  have h17 : tickSpeedFP^[100] (48699404354591916032 : ℤ) = 49437274117540216832 := by decide
  have h18 : tickSpeedFP^[100] (49437274117540216832 : ℤ) = 50175143880488517632 := by decide
  have h19 : tickSpeedFP^[100] (50175143880488517632 : ℤ) = 50913013643436818432 := by decide
  have h20 : tickSpeedFP^[100] (50913013643436818432 : ℤ) = 51650883406385119232 := by decide
  have h21 : tickSpeedFP^[100] (51650883406385119232 : ℤ) = 52388753169333420032 := by decide
  have h22 : tickSpeedFP^[100] (52388753169333420032 : ℤ) = 53126622932281720832 := by decide
  have h23 : tickSpeedFP^[100] (53126622932281720832 : ℤ) = 53864492695230021632 := by decide
  have h24 : tickSpeedFP^[100] (53864492695230021632 : ℤ) = 54602362458178322432 := by decide
  have h25 : tickSpeedFP^[100] (54602362458178322432 : ℤ) = 55340232221126623232 := by decide
  have h26 : tickSpeedFP^[100] (55340232221126623232 : ℤ) = 56078101984074924032 := by decide
  have h27 : tickSpeedFP^[100] (56078101984074924032 : ℤ) = 56815971747023224832 := by decide
  have h28 : tickSpeedFP^[100] (56815971747023224832 : ℤ) = 57553841509971525632 := by decide
  have h29 : tickSpeedFP^[100] (57553841509971525632 : ℤ) = 58291711272919826432 := by decide
  have h30 : tickSpeedFP^[100] (58291711272919826432 : ℤ) = 59029581035868127232 := by decide
  have h31 : tickSpeedFP^[100] (59029581035868127232 : ℤ) = 59767450798816428032 := by decide
  have h32 : tickSpeedFP^[100] (59767450798816428032 : ℤ) = 60505320561764728832 := by decide
  have h33 : tickSpeedFP^[100] (60505320561764728832 : ℤ) = 61243190324713029632 := by decide
  have h34 : tickSpeedFP^[100] (61243190324713029632 : ℤ) = 61981060087661330432 := by decide
  have h35 : tickSpeedFP^[100] (61981060087661330432 : ℤ) = 62718929850609631232 := by decide
  have h36 : tickSpeedFP^[100] (62718929850609631232 : ℤ) = 63456799613557932032 := by decide
  have h37 : tickSpeedFP^[100] (63456799613557932032 : ℤ) = 64194669376506232832 := by decide
  have h38 : tickSpeedFP^[100] (64194669376506232832 : ℤ) = 64932539139454533632 := by decide
  have h39 : tickSpeedFP^[100] (64932539139454533632 : ℤ) = 65670408902402834432 := by decide
  have h40 : tickSpeedFP^[100] (65670408902402834432 : ℤ) = 66408278665351135232 := by decide
  have h41 : tickSpeedFP^[100] (66408278665351135232 : ℤ) = 67146148428299436032 := by decide
  have h42 : tickSpeedFP^[100] (67146148428299436032 : ℤ) = 67884018191247736832 := by decide
  have h43 : tickSpeedFP^[100] (67884018191247736832 : ℤ) = 68621887954196037632 := by decide
  have h44 : tickSpeedFP^[100] (68621887954196037632 : ℤ) = 69359757717144338432 := by decide
  have h45 : tickSpeedFP^[100] (69359757717144338432 : ℤ) = 70097627480092639232 := by decide
  have h46 : tickSpeedFP^[100] (70097627480092639232 : ℤ) = 70835497243040940032 := by decide
  have h47 : tickSpeedFP^[100] (70835497243040940032 : ℤ) = 71573367005989240832 := by decide
  have h48 : tickSpeedFP^[100] (71573367005989240832 : ℤ) = 72311236768937541632 := by decide
  have h49 : tickSpeedFP^[100] (72311236768937541632 : ℤ) = 73049106531885842432 := by decide
  have h50 : tickSpeedFP^[100] (73049106531885842432 : ℤ) = 73786976294834143232 := by decide
  have h51 : tickSpeedFP^[100] (73786976294834143232 : ℤ) = 74524846057782444032 := by decide
  have h52 : tickSpeedFP^[100] (74524846057782444032 : ℤ) = 75262715820730744832 := by decide
  have h53 : tickSpeedFP^[100] (75262715820730744832 : ℤ) = 76000585583679045632 := by decide
  have h54 : tickSpeedFP^[100] (76000585583679045632 : ℤ) = 76738455346627346432 := by decide
  have h55 : tickSpeedFP^[100] (76738455346627346432 : ℤ) = 77476325109575647232 := by decide
  have h56 : tickSpeedFP^[100] (77476325109575647232 : ℤ) = 78214194872523948032 := by decide
  have h57 : tickSpeedFP^[100] (78214194872523948032 : ℤ) = 78952064635472248832 := by decide
  have h58 : tickSpeedFP^[100] (78952064635472248832 : ℤ) = 79689934398420549632 := by decide
  have h59 : tickSpeedFP^[100] (79689934398420549632 : ℤ) = 80427804161368850432 := by decide
  have h60 : tickSpeedFP^[100] (80427804161368850432 : ℤ) = 81165673924317151232 := by decide
  have h61 : tickSpeedFP^[100] (81165673924317151232 : ℤ) = 81903543687265452032 := by decide
  have h62 : tickSpeedFP^[100] (81903543687265452032 : ℤ) = 82641413450213752832 := by decide
  have h63 : tickSpeedFP^[100] (82641413450213752832 : ℤ) = 83379283213162053632 := by decide
  have h64 : tickSpeedFP^[100] (83379283213162053632 : ℤ) = 84117152976110354432 := by decide
  have h65 : tickSpeedFP^[100] (84117152976110354432 : ℤ) = 84855022739058655232 := by decide
  have h66 : tickSpeedFP^[100] (84855022739058655232 : ℤ) = 85592892502006956032 := by decide
  have h67 : tickSpeedFP^[100] (85592892502006956032 : ℤ) = 86330762264955256832 := by decide
  have h68 : tickSpeedFP^[100] (86330762264955256832 : ℤ) = 87068632027903557632 := by decide
  have h69 : tickSpeedFP^[100] (87068632027903557632 : ℤ) = 87806501790851858432 := by decide
  have h70 : tickSpeedFP^[100] (87806501790851858432 : ℤ) = 88544371553800159232 := by decide
  have h71 : tickSpeedFP^[1] (88544371553800159232 : ℤ) = 88551750251429642240 := by decide
  have g1 : tickSpeedFP^[100] (36893488147419103232 : ℤ) = 37631357910367404032 := h1
  have g2 : tickSpeedFP^[200] (36893488147419103232 : ℤ) = 38369227673315704832 :=
    iterate_chain tickSpeedFP 100 100 200 _ _ _ (by norm_num) g1 h2
  have g3 : tickSpeedFP^[300] (36893488147419103232 : ℤ) = 39107097436264005632 :=
    iterate_chain tickSpeedFP 200 100 300 _ _ _ (by norm_num) g2 h3
  have g4 : tickSpeedFP^[400] (36893488147419103232 : ℤ) = 39844967199212306432 :=
    iterate_chain tickSpeedFP 300 100 400 _ _ _ (by norm_num) g3 h4
  have g5 : tickSpeedFP^[500] (36893488147419103232 : ℤ) = 40582836962160607232 :=
    iterate_chain tickSpeedFP 400 100 500 _ _ _ (by norm_num) g4 h5
  have g6 : tickSpeedFP^[600] (36893488147419103232 : ℤ) = 41320706725108908032 :=
    iterate_chain tickSpeedFP 500 100 600 _ _ _ (by norm_num) g5 h6
  have g7 : tickSpeedFP^[700] (36893488147419103232 : ℤ) = 42058576488057208832 :=
    iterate_chain tickSpeedFP 600 100 700 _ _ _ (by norm_num) g6 h7
  have g8 : tickSpeedFP^[800] (36893488147419103232 : ℤ) = 42796446251005509632 :=
    iterate_chain tickSpeedFP 700 100 800 _ _ _ (by norm_num) g7 h8
  have g9 : tickSpeedFP^[900] (36893488147419103232 : ℤ) = 43534316013953810432 :=
    iterate_chain tickSpeedFP 800 100 900 _ _ _ (by norm_num) g8 h9
  have g10 : tickSpeedFP^[1000] (36893488147419103232 : ℤ) = 44272185776902111232 :=
    iterate_chain tickSpeedFP 900 100 1000 _ _ _ (by norm_num) g9 h10
  have g11 : tickSpeedFP^[1100] (36893488147419103232 : ℤ) = 45010055539850412032 :=
    iterate_chain tickSpeedFP 1000 100 1100 _ _ _ (by norm_num) g10 h11
  have g12 : tickSpeedFP^[1200] (36893488147419103232 : ℤ) = 45747925302798712832 :=
    iterate_chain tickSpeedFP 1100 100 1200 _ _ _ (by norm_num) g11 h12
  have g13 : tickSpeedFP^[1300] (36893488147419103232 : ℤ) = 46485795065747013632 :=
    iterate_chain tickSpeedFP 1200 100 1300 _ _ _ (by norm_num) g12 h13
  have g14 : tickSpeedFP^[1400] (36893488147419103232 : ℤ) = 47223664828695314432 :=
    iterate_chain tickSpeedFP 1300 100 1400 _ _ _ (by norm_num) g13 h14
  have g15 : tickSpeedFP^[1500] (36893488147419103232 : ℤ) = 47961534591643615232 :=
    iterate_chain tickSpeedFP 1400 100 1500 _ _ _ (by norm_num) g14 h15
  have g16 : tickSpeedFP^[1600] (36893488147419103232 : ℤ) = 48699404354591916032 :=
    iterate_chain tickSpeedFP 1500 100 1600 _ _ _ (by norm_num) g15 h16
  have g17 : tickSpeedFP^[1700] (36893488147419103232 : ℤ) = 49437274117540216832 :=
    iterate_chain tickSpeedFP 1600 100 1700 _ _ _ (by norm_num) g16 h17
  have g18 : tickSpeedFP^[1800] (36893488147419103232 : ℤ) = 50175143880488517632 :=
    iterate_chain tickSpeedFP 1700 100 1800 _ _ _ (by norm_num) g17 h18
  have g19 : tickSpeedFP^[1900] (36893488147419103232 : ℤ) = 50913013643436818432 :=
    iterate_chain tickSpeedFP 1800 100 1900 _ _ _ (by norm_num) g18 h19
  have g20 : tickSpeedFP^[2000] (36893488147419103232 : ℤ) = 51650883406385119232 :=
    iterate_chain tickSpeedFP 1900 100 2000 _ _ _ (by norm_num) g19 h20
  have g21 : tickSpeedFP^[2100] (36893488147419103232 : ℤ) = 52388753169333420032 :=
    iterate_chain tickSpeedFP 2000 100 2100 _ _ _ (by norm_num) g20 h21
  have g22 : tickSpeedFP^[2200] (36893488147419103232 : ℤ) = 53126622932281720832 :=
    iterate_chain tickSpeedFP 2100 100 2200 _ _ _ (by norm_num) g21 h22
  have g23 : tickSpeedFP^[2300] (36893488147419103232 : ℤ) = 53864492695230021632 :=
    iterate_chain tickSpeedFP 2200 100 2300 _ _ _ (by norm_num) g22 h23
  have g24 : tickSpeedFP^[2400] (36893488147419103232 : ℤ) = 54602362458178322432 :=
    iterate_chain tickSpeedFP 2300 100 2400 _ _ _ (by norm_num) g23 h24
  have g25 : tickSpeedFP^[2500] (36893488147419103232 : ℤ) = 55340232221126623232 :=
    iterate_chain tickSpeedFP 2400 100 2500 _ _ _ (by norm_num) g24 h25
  have g26 : tickSpeedFP^[2600] (36893488147419103232 : ℤ) = 56078101984074924032 :=
    iterate_chain tickSpeedFP 2500 100 2600 _ _ _ (by norm_num) g25 h26
  have g27 : tickSpeedFP^[2700] (36893488147419103232 : ℤ) = 56815971747023224832 :=
    iterate_chain tickSpeedFP 2600 100 2700 _ _ _ (by norm_num) g26 h27
  have g28 : tickSpeedFP^[2800] (36893488147419103232 : ℤ) = 57553841509971525632 :=
    iterate_chain tickSpeedFP 2700 100 2800 _ _ _ (by norm_num) g27 h28
  have g29 : tickSpeedFP^[2900] (36893488147419103232 : ℤ) = 58291711272919826432 :=
    iterate_chain tickSpeedFP 2800 100 2900 _ _ _ (by norm_num) g28 h29
  have g30 : tickSpeedFP^[3000] (36893488147419103232 : ℤ) = 59029581035868127232 :=
    iterate_chain tickSpeedFP 2900 100 3000 _ _ _ (by norm_num) g29 h30
  have g31 : tickSpeedFP^[3100] (36893488147419103232 : ℤ) = 59767450798816428032 :=
    iterate_chain tickSpeedFP 3000 100 3100 _ _ _ (by norm_num) g30 h31
  have g32 : tickSpeedFP^[3200] (36893488147419103232 : ℤ) = 60505320561764728832 :=
    iterate_chain tickSpeedFP 3100 100 3200 _ _ _ (by norm_num) g31 h32
  have g33 : tickSpeedFP^[3300] (36893488147419103232 : ℤ) = 61243190324713029632 :=
    iterate_chain tickSpeedFP 3200 100 3300 _ _ _ (by norm_num) g32 h33
  have g34 : tickSpeedFP^[3400] (36893488147419103232 : ℤ) = 61981060087661330432 :=
    iterate_chain tickSpeedFP 3300 100 3400 _ _ _ (by norm_num) g33 h34
  have g35 : tickSpeedFP^[3500] (36893488147419103232 : ℤ) = 62718929850609631232 :=
    iterate_chain tickSpeedFP 3400 100 3500 _ _ _ (by norm_num) g34 h35
  have g36 : tickSpeedFP^[3600] (36893488147419103232 : ℤ) = 63456799613557932032 :=
    iterate_chain tickSpeedFP 3500 100 3600 _ _ _ (by norm_num) g35 h36
  have g37 : tickSpeedFP^[3700] (36893488147419103232 : ℤ) = 64194669376506232832 :=
    iterate_chain tickSpeedFP 3600 100 3700 _ _ _ (by norm_num) g36 h37
  have g38 : tickSpeedFP^[3800] (36893488147419103232 : ℤ) = 64932539139454533632 :=
    iterate_chain tickSpeedFP 3700 100 3800 _ _ _ (by norm_num) g37 h38
  have g39 : tickSpeedFP^[3900] (36893488147419103232 : ℤ) = 65670408902402834432 :=
    iterate_chain tickSpeedFP 3800 100 3900 _ _ _ (by norm_num) g38 h39
  have g40 : tickSpeedFP^[4000] (36893488147419103232 : ℤ) = 66408278665351135232 :=
    iterate_chain tickSpeedFP 3900 100 4000 _ _ _ (by norm_num) g39 h40
  have g41 : tickSpeedFP^[4100] (36893488147419103232 : ℤ) = 67146148428299436032 :=
    iterate_chain tickSpeedFP 4000 100 4100 _ _ _ (by norm_num) g40 h41
  have g42 : tickSpeedFP^[4200] (36893488147419103232 : ℤ) = 67884018191247736832 :=
    iterate_chain tickSpeedFP 4100 100 4200 _ _ _ (by norm_num) g41 h42
  have g43 : tickSpeedFP^[4300] (36893488147419103232 : ℤ) = 68621887954196037632 :=
    iterate_chain tickSpeedFP 4200 100 4300 _ _ _ (by norm_num) g42 h43
  have g44 : tickSpeedFP^[4400] (36893488147419103232 : ℤ) = 69359757717144338432 :=
    iterate_chain tickSpeedFP 4300 100 4400 _ _ _ (by norm_num) g43 h44
  have g45 : tickSpeedFP^[4500] (36893488147419103232 : ℤ) = 70097627480092639232 :=
    iterate_chain tickSpeedFP 4400 100 4500 _ _ _ (by norm_num) g44 h45
  have g46 : tickSpeedFP^[4600] (36893488147419103232 : ℤ) = 70835497243040940032 :=
    iterate_chain tickSpeedFP 4500 100 4600 _ _ _ (by norm_num) g45 h46
  have g47 : tickSpeedFP^[4700] (36893488147419103232 : ℤ) = 71573367005989240832 :=
    iterate_chain tickSpeedFP 4600 100 4700 _ _ _ (by norm_num) g46 h47
  have g48 : tickSpeedFP^[4800] (36893488147419103232 : ℤ) = 72311236768937541632 :=
    iterate_chain tickSpeedFP 4700 100 4800 _ _ _ (by norm_num) g47 h48
  have g49 : tickSpeedFP^[4900] (36893488147419103232 : ℤ) = 73049106531885842432 :=
    iterate_chain tickSpeedFP 4800 100 4900 _ _ _ (by norm_num) g48 h49
  have g50 : tickSpeedFP^[5000] (36893488147419103232 : ℤ) = 73786976294834143232 :=
    iterate_chain tickSpeedFP 4900 100 5000 _ _ _ (by norm_num) g49 h50
  have g51 : tickSpeedFP^[5100] (36893488147419103232 : ℤ) = 74524846057782444032 :=
    iterate_chain tickSpeedFP 5000 100 5100 _ _ _ (by norm_num) g50 h51
  have g52 : tickSpeedFP^[5200] (36893488147419103232 : ℤ) = 75262715820730744832 :=
    iterate_chain tickSpeedFP 5100 100 5200 _ _ _ (by norm_num) g51 h52
  have g53 : tickSpeedFP^[5300] (36893488147419103232 : ℤ) = 76000585583679045632 :=
    iterate_chain tickSpeedFP 5200 100 5300 _ _ _ (by norm_num) g52 h53
  have g54 : tickSpeedFP^[5400] (36893488147419103232 : ℤ) = 76738455346627346432 :=
    iterate_chain tickSpeedFP 5300 100 5400 _ _ _ (by norm_num) g53 h54
  have g55 : tickSpeedFP^[5500] (36893488147419103232 : ℤ) = 77476325109575647232 :=
    iterate_chain tickSpeedFP 5400 100 5500 _ _ _ (by norm_num) g54 h55
  have g56 : tickSpeedFP^[5600] (36893488147419103232 : ℤ) = 78214194872523948032 :=
    iterate_chain tickSpeedFP 5500 100 5600 _ _ _ (by norm_num) g55 h56
  have g57 : tickSpeedFP^[5700] (36893488147419103232 : ℤ) = 78952064635472248832 :=
    iterate_chain tickSpeedFP 5600 100 5700 _ _ _ (by norm_num) g56 h57
  have g58 : tickSpeedFP^[5800] (36893488147419103232 : ℤ) = 79689934398420549632 :=
    iterate_chain tickSpeedFP 5700 100 5800 _ _ _ (by norm_num) g57 h58
  have g59 : tickSpeedFP^[5900] (36893488147419103232 : ℤ) = 80427804161368850432 :=
    iterate_chain tickSpeedFP 5800 100 5900 _ _ _ (by norm_num) g58 h59
  have g60 : tickSpeedFP^[6000] (36893488147419103232 : ℤ) = 81165673924317151232 :=
    iterate_chain tickSpeedFP 5900 100 6000 _ _ _ (by norm_num) g59 h60
  have g61 : tickSpeedFP^[6100] (36893488147419103232 : ℤ) = 81903543687265452032 :=
    iterate_chain tickSpeedFP 6000 100 6100 _ _ _ (by norm_num) g60 h61
  have g62 : tickSpeedFP^[6200] (36893488147419103232 : ℤ) = 82641413450213752832 :=
    iterate_chain tickSpeedFP 6100 100 6200 _ _ _ (by norm_num) g61 h62
  have g63 : tickSpeedFP^[6300] (36893488147419103232 : ℤ) = 83379283213162053632 :=
    iterate_chain tickSpeedFP 6200 100 6300 _ _ _ (by norm_num) g62 h63
  have g64 : tickSpeedFP^[6400] (36893488147419103232 : ℤ) = 84117152976110354432 :=
    iterate_chain tickSpeedFP 6300 100 6400 _ _ _ (by norm_num) g63 h64
  have g65 : tickSpeedFP^[6500] (36893488147419103232 : ℤ) = 84855022739058655232 :=
    iterate_chain tickSpeedFP 6400 100 6500 _ _ _ (by norm_num) g64 h65
  have g66 : tickSpeedFP^[6600] (36893488147419103232 : ℤ) = 85592892502006956032 :=
    iterate_chain tickSpeedFP 6500 100 6600 _ _ _ (by norm_num) g65 h66
  have g67 : tickSpeedFP^[6700] (36893488147419103232 : ℤ) = 86330762264955256832 :=
    iterate_chain tickSpeedFP 6600 100 6700 _ _ _ (by norm_num) g66 h67
  have g68 : tickSpeedFP^[6800] (36893488147419103232 : ℤ) = 87068632027903557632 :=
    iterate_chain tickSpeedFP 6700 100 6800 _ _ _ (by norm_num) g67 h68
  have g69 : tickSpeedFP^[6900] (36893488147419103232 : ℤ) = 87806501790851858432 :=
    iterate_chain tickSpeedFP 6800 100 6900 _ _ _ (by norm_num) g68 h69
  have g70 : tickSpeedFP^[7000] (36893488147419103232 : ℤ) = 88544371553800159232 :=
    iterate_chain tickSpeedFP 6900 100 7000 _ _ _ (by norm_num) g69 h70
  constructor
  · rw [speedSeqFP_iterate]
    exact g70
  · rw [speedSeqFP_iterate]
    exact iterate_chain tickSpeedFP 7000 1 7001 _ _ _ (by norm_num) g70 h71

lemma speedSeqFP_mono : Monotone speedSeqFP :=
  monotone_nat_of_le_succ (fun k => tickSpeedFP_ge (speedSeqFP k))

lemma speedSeqFP_after (j : ℕ) : speedSeqFP (7001 + j) = speedSeqFP 7001 := by
  induction j with
  | zero => rfl
  | succ j ih =>
    have hstep : speedSeqFP (7001 + (j + 1)) = tickSpeedFP (speedSeqFP (7001 + j)) := rfl
    rw [hstep, ih]
    refine tickSpeedFP_stable _ ?_
    rw [speedSeqFP_vals.2]
    decide

lemma speedSeqFP_le_peak (k : ℕ) : speedSeqFP k ≤ speedSeqFP 7001 := by
  rcases le_or_lt k 7001 with h | h
  · exact speedSeqFP_mono h
  · have hk : k = 7001 + (k - 7001) := by omega
    rw [hk, speedSeqFP_after]


-- The lane bound.

lemma laneInv_input (k : String) (s : GState) (h : laneInv s) :
    laneInv ((handleInput k s).1) := by
  obtain ⟨hlo, hhi⟩ := h
  rcases handleInput_shape k s with h0 | ⟨h0, hb⟩ | ⟨h0, hb⟩ | ⟨h0, _, _⟩ |
      ⟨h0, _, _⟩ <;> rw [h0] <;> constructor <;> simp <;> omega

lemma laneInv_step (a : Act) (s : GState) (h : laneInv s) :
    laneInv (stepAct a s) := by
  cases a with
  | key k => exact laneInv_input k s h
  | frame o =>
    by_cases ha : s.active = true
    · constructor <;> rw [stepAct, loopTick_lane o s ha] <;> [exact h.1; exact h.2]
    · have ha0 : s.active = false := by simpa using ha
      rw [stepAct, loopTick_inactive o s ha0]; exact h

lemma laneInv_run (acts : List Act) (s : GState) (h : laneInv s) :
    laneInv (runActs acts s) := by
  induction acts generalizing s with
  | nil => exact h
  | cons a rest ih => rw [runActs_cons]; exact ih (stepAct a s) (laneInv_step a s h)

lemma gameOverCount_eq_zero (evs : List Event)
    (h : ∀ e ∈ evs, isGameOverEvent e = false) : gameOverCount evs = 0 := by
  have hnil : evs.filter isGameOverEvent = [] :=
    List.filter_eq_nil_iff.mpr (fun e he => by simp [h e he])
  rw [gameOverCount, hnil]
  rfl

-- Evaluated facts about the fixtures.

lemma witPlayerBoxEq :
    shrinkPlayerBox playerRawBox =
      ⟨mkRat (-7) 10, mkRat 7 10, mkRat 1 5, mkRat 9 5, mkRat (-3) 5, mkRat 3 5⟩ := by
  simp only [shrinkPlayerBox, playerRawBox]
  norm_num [Rat.mkRat_eq_div]

lemma witObstacleBoxEq :
    shrinkObstacleBox bigBox =
      ⟨mkRat (-499) 5, mkRat 499 5, -100, 100, mkRat (-499) 5, mkRat 499 5⟩ := by
  simp only [shrinkObstacleBox, bigBox]
  norm_num [Rat.mkRat_eq_div]

lemma witInterObstacle :
    (shrinkObstacleBox bigBox).intersects (shrinkPlayerBox playerRawBox) = true := by
  rw [witObstacleBoxEq, witPlayerBoxEq]
  decide

lemma witInterCoin :
    coinCollides witOracle (shrinkPlayerBox witOracle.rawPlayerBox) witCoin = true := by
  simp only [coinCollides, witOracle, witCoin]
  rw [witPlayerBoxEq]
  decide

lemma witCoinFilter :
    (tickCoins0 witOracle witCoinState).filter
      (fun x => coinCollides witOracle
        (shrinkPlayerBox witOracle.rawPlayerBox) x) = [witCoin] := by
  have hco : tickCoins0 witOracle witCoinState = [witCoin] := by
    simp [tickCoins0, witOracle, witCoinState, witState]
  rw [hco, List.filter_cons]
  simp [witInterCoin]

-- The claims.

/-- Claim C10 (confirmed): when the game is not in the active PLAYING state,
every key input is a complete no-op: lane, pose flags, vertical velocity,
slide timer, score and every other state component are unchanged, and no
audio notification is emitted. -/
theorem C10_inactive_input (k : String) (s : GState) (h : s.active = false) :
    handleInput k s = (s, []) :=
  handleInput_inactive k s h

/-- Witness for C10: a concrete inactive state and a jump key. -/
theorem C10_inactive_input_witness :
    witInactiveState.active = false ∧
      handleInput "w" witInactiveState = (witInactiveState, []) :=
  ⟨rfl, C10_inactive_input "w" witInactiveState rfl⟩

/-- Claim C9 (confirmed): the vertical offset never ends an active tick
negative; on the tick where the integrated offset would fall to 0 or below it
is clamped to exactly 0, the vertical velocity is reset to 0, and the Jumping
flag is cleared. -/
theorem C9_offset_clamped :
    (∀ (o : Oracle) (s : GState), 0 ≤ s.jumpY → 0 ≤ ((loopTick o s).1).jumpY) ∧
    (∀ (o : Oracle) (s : GState), s.active = true → s.isJumping = true →
      s.jumpY + s.velY ≤ 0 →
      ((loopTick o s).1).jumpY = 0 ∧ ((loopTick o s).1).velY = 0 ∧
        ((loopTick o s).1).isJumping = false) := by
  constructor
  · intro o s h
    by_cases ha : s.active = true
    · rw [loopTick_jumpY o s ha]
      by_cases hj : s.isJumping = true
      · by_cases hle : s.jumpY + s.velY ≤ 0
        · simp [tickJump, hj, hle]
        · simp only [tickJump, hj, if_true, hle, if_false]
          push_neg at hle
          linarith
      · have hj0 : s.isJumping = false := by simpa using hj
        simpa [tickJump, hj0] using h
    · have ha0 : s.active = false := by simpa using ha
      rw [loopTick_inactive o s ha0]
      exact h
  · intro o s ha hj hle
    rw [loopTick_jumpY o s ha, loopTick_velY o s ha, loopTick_isJumping o s ha]
    simp [tickJump, hj, hle]

/-- Witness for C9: the baseline state, and a jump state at the landing
instant. -/
theorem C9_offset_clamped_witness :
    (0 ≤ witState.jumpY ∧ 0 ≤ ((loopTick witOracle witState).1).jumpY) ∧
    (witJumpState.active = true ∧ witJumpState.isJumping = true ∧
      witJumpState.jumpY + witJumpState.velY ≤ 0 ∧
      ((loopTick witOracle witJumpState).1).jumpY = 0) :=
  ⟨⟨le_refl 0, C9_offset_clamped.1 witOracle witState (le_refl 0)⟩,
   rfl, rfl, by simp [witJumpState, witState],
   (C9_offset_clamped.2 witOracle witJumpState rfl rfl
     (by simp [witJumpState, witState])).1⟩

/-- Claim C8 (confirmed): `resetGame` is insensitive to the state it starts
from on every field it resets, so calling it twice consecutively yields the
identical resulting state both times: score 0, base speed, center lane with
lateral position 0, zero vertical offset and velocity, no pose flags, empty
entity sets and a fresh initial chunk window with the spawn boundary at its
initial value. -/
theorem C8_reset_idempotent (s : GState) :
    resetGame (resetGame s) = resetGame s ∧
    (resetGame s).score = 0 ∧
    (resetGame s).speed = PLAYER_SPEED_BASE ∧
    (resetGame s).lane = 1 ∧
    (resetGame s).currentLaneX = 0 ∧
    (resetGame s).jumpY = 0 ∧
    (resetGame s).velY = 0 ∧
    (resetGame s).isJumping = false ∧
    (resetGame s).isSliding = false ∧
    (resetGame s).coins = [] ∧
    (resetGame s).obstacles = [] ∧
    (resetGame s).scenery = [] ∧
    (resetGame s).floorChunks = initialFloorChunks ∧
    (resetGame s).lastSpawnZ = -140 ∧
    (resetGame s).playerZ = 0 :=
  ⟨rfl, rfl, rfl, rfl, rfl, rfl, rfl, rfl, rfl, rfl, rfl, rfl, rfl, rfl, rfl⟩

/-- Witness for C8 at a concrete state carrying entities and a mid-run pose. -/
theorem C8_reset_idempotent_witness :
    resetGame (resetGame witCoinState) = resetGame witCoinState ∧
    (resetGame witCoinState).score = 0 :=
  ⟨(C8_reset_idempotent witCoinState).1, (C8_reset_idempotent witCoinState).2.1⟩

/-- Claim C5 (confirmed): the lane index stays in 0..2 under every act
sequence; a lane-left input at lane 0 and a lane-right input at lane 2 are
complete no-ops (state unchanged, nothing emitted, nothing thrown), and every
accepted lane change moves the lane by exactly one. -/
theorem C5_lane_saturation :
    (∀ (acts : List Act) (s : GState), laneInv s → laneInv (runActs acts s)) ∧
    (∀ (k : String) (s : GState), isLeftKey k → s.lane = 0 →
      handleInput k s = (s, [])) ∧
    (∀ (k : String) (s : GState), isRightKey k → s.lane = 2 →
      handleInput k s = (s, [])) ∧
    (∀ (k : String) (s : GState), s.active = true → isLeftKey k → 0 < s.lane →
      ((handleInput k s).1).lane = s.lane - 1) ∧
    (∀ (k : String) (s : GState), s.active = true → isRightKey k → s.lane < 2 →
      ((handleInput k s).1).lane = s.lane + 1) := by
  refine ⟨laneInv_run, ?_, ?_, ?_, ?_⟩
  · intro k s hk h0
    by_cases ha : s.active = true
    · rw [handleInput_left k s hk ha, h0]
      simp
    · exact handleInput_inactive k s (by simpa using ha)
  · intro k s hk h2
    by_cases ha : s.active = true
    · rw [handleInput_right k s hk ha, h2]
      simp
    · exact handleInput_inactive k s (by simpa using ha)
  · intro k s ha hk hb
    rw [handleInput_left k s hk ha, if_pos hb]
  · intro k s ha hk hb
    rw [handleInput_right k s hk ha, if_pos hb]

/-- Witness for C5: a run of inputs from the center lane, a rejected left
input at lane 0, and an accepted left input from the center lane. -/
theorem C5_lane_saturation_witness :
    (laneInv witState ∧
      laneInv (runActs [Act.key "a", Act.key "a", Act.key "a"] witState)) ∧
    (isLeftKey "ArrowLeft" ∧ witLane0.lane = 0 ∧
      handleInput "ArrowLeft" witLane0 = (witLane0, [])) ∧
    (witState.active = true ∧ isLeftKey "a" ∧ 0 < witState.lane ∧
      ((handleInput "a" witState).1).lane = witState.lane - 1) :=
  ⟨⟨⟨by decide, by decide⟩,
    C5_lane_saturation.1 [Act.key "a", Act.key "a", Act.key "a"] witState
      ⟨by decide, by decide⟩⟩,
   ⟨Or.inr rfl, rfl,
    C5_lane_saturation.2.1 "ArrowLeft" witLane0 (Or.inr rfl) rfl⟩,
   ⟨rfl, Or.inl rfl, by decide,
    C5_lane_saturation.2.2.2.1 "a" witState rfl (Or.inl rfl) (by decide)⟩⟩

/-- Claim C6 (confirmed): after every input event and every tick exactly one
pose holds (Running being the absence of both flags); Jumping is entered by
input only when neither flag is set and ends on the tick where the offset
falls to 0 or below; Sliding is entered by input only when neither flag is
set, and ends on the tick where its timer expires. -/
theorem C6_pose_exclusive :
    (∀ (acts : List Act) (s : GState), poseCount s = 1 →
      poseCount (runActs acts s) = 1) ∧
    (∀ (k : String) (s : GState), s.isJumping = false →
      ((handleInput k s).1).isJumping = true → s.isSliding = false) ∧
    (∀ (o : Oracle) (s : GState), s.active = true → s.isJumping = true →
      s.jumpY + s.velY ≤ 0 → ((loopTick o s).1).isJumping = false) ∧
    (∀ (k : String) (s : GState), s.isSliding = false →
      ((handleInput k s).1).isSliding = true → s.isJumping = false) ∧
    (∀ (o : Oracle) (s : GState), s.active = true → s.isSliding = true →
      s.slideTimer - 1 ≤ 0 → ((loopTick o s).1).isSliding = false) := by
  refine ⟨poseCount_run, ?_, ?_, ?_, ?_⟩
  · intro k s hJ hres
    rcases handleInput_shape k s with h0 | ⟨h0, _⟩ | ⟨h0, _⟩ | ⟨h0, _, hS⟩ |
        ⟨h0, _, _⟩ <;> rw [h0] at hres <;> simp_all
  · intro o s ha hj hle
    rw [loopTick_isJumping o s ha]
    simp [tickJump, hj, hle]
  · intro k s hS hres
    rcases handleInput_shape k s with h0 | ⟨h0, _⟩ | ⟨h0, _⟩ | ⟨h0, _, _⟩ |
        ⟨h0, _, hJ⟩ <;> rw [h0] at hres <;> simp_all
  · intro o s ha hs hle
    rw [loopTick_isSliding o s ha]
    simp [tickSlide, hs, hle]

/-- Witness for C6: a jump input followed by a tick from the baseline state,
the landing tick of the jump fixture, and the expiring tick of the slide
fixture. -/
theorem C6_pose_exclusive_witness :
    (poseCount witState = 1 ∧
      poseCount (runActs [Act.key "w", Act.frame witOracle] witState) = 1) ∧
    (witJumpState.active = true ∧ witJumpState.isJumping = true ∧
      witJumpState.jumpY + witJumpState.velY ≤ 0 ∧
      ((loopTick witOracle witJumpState).1).isJumping = false) ∧
    (witSlideState.active = true ∧ witSlideState.isSliding = true ∧
      witSlideState.slideTimer - 1 ≤ 0 ∧
      ((loopTick witOracle witSlideState).1).isSliding = false) :=
  ⟨⟨by decide,
    C6_pose_exclusive.1 [Act.key "w", Act.frame witOracle] witState (by decide)⟩,
   ⟨rfl, rfl, by simp [witJumpState, witState],
    C6_pose_exclusive.2.2.1 witOracle witJumpState rfl rfl
      (by simp [witJumpState, witState])⟩,
   ⟨rfl, rfl, by decide,
    C6_pose_exclusive.2.2.2.2 witOracle witSlideState rfl rfl (by decide)⟩⟩


lemma obstaclePhase_singleton (o : Oracle) (pb : Box3) (py : ℚ) (sl : Bool)
    (sc : ℕ) (ob : Obstacle) :
    (obstaclePhase o pb py sl sc true [ob]).1 = !(obstacleHit o pb py sl ob) := by
  by_cases h : obstacleHit o pb py sl ob = true <;> simp [obstaclePhase, h]

/-- Claim C2 (confirmed): on an active tick whose obstacle scan sees exactly
one Low Obstacle at ground level whose shrunk box intersects the player's
shrunk box, the run survives the tick if and only if the player is in the
Jumping pose with vertical offset above the clearance threshold 1.2 relative
to the obstacle's base; in particular in the Running pose (Jumping flag down)
the identical intersection ends the run.  (The source tests only the offset;
the pose equivalence holds because off the Jumping pose the offset is 0 — the
`groundInv` hypothesis, itself an invariant of the simulation.) -/
theorem C2_low_obstacle (o : Oracle) (s : GState) (ob : Obstacle)
    (ha : s.active = true)
    (hobs : tickObstacles0 o s = [ob])
    (htype : ob.type = EntityType.OBSTACLE_LOW)
    (hbase : ob.posY = 0)
    (hinter : (shrinkObstacleBox (o.obstacleBox ob.id)).intersects
        (shrinkPlayerBox o.rawPlayerBox) = true)
    (hground : groundInv s) :
    (((loopTick o s).1).active = true ↔
      ((tickJump s).2.2 = true ∧ (tickJump s).1 - ob.posY > mkRat 6 5)) ∧
    ((tickJump s).2.2 = false → ((loopTick o s).1).active = false) := by
  have hflag := loopTick_activeFlag o s ha
  rw [hobs, obstaclePhase_singleton] at hflag
  have hhit : obstacleHit o (shrinkPlayerBox o.rawPlayerBox) (tickJump s).1
      (tickSlide s).1 ob
      = !(decide ((tickJump s).1 - ob.posY > mkRat 6 5)) := by
    simp [obstacleHit, hinter, htype]
  rw [hhit, Bool.not_not] at hflag
  constructor
  · rw [hflag]
    constructor
    · intro h
      have hgt : (tickJump s).1 - ob.posY > mkRat 6 5 := of_decide_eq_true h
      refine ⟨?_, hgt⟩
      by_cases hFlagJ : (tickJump s).2.2 = true
      · exact hFlagJ
      · exfalso
        have h0 : (tickJump s).1 = 0 :=
          tickJump_ground s hground (by simpa using hFlagJ)
        rw [h0, hbase, Rat.mkRat_eq_div] at hgt
        norm_num at hgt
    · rintro ⟨_, hgt⟩
      exact decide_eq_true hgt
  · intro hJ
    rw [hflag]
    have h0 : (tickJump s).1 = 0 := tickJump_ground s hground hJ
    refine decide_eq_false ?_
    rw [h0, hbase, Rat.mkRat_eq_div]
    norm_num

/-- Witness for C2: the low-obstacle fixture hit while Running (offset 0), on
which the run ends. -/
theorem C2_low_obstacle_witness :
    witLowState.active = true ∧
    tickObstacles0 witOracle witLowState = [witLowOb] ∧
    witLowOb.type = EntityType.OBSTACLE_LOW ∧
    (shrinkObstacleBox (witOracle.obstacleBox witLowOb.id)).intersects
      (shrinkPlayerBox witOracle.rawPlayerBox) = true ∧
    (((loopTick witOracle witLowState).1).active = true ↔
      ((tickJump witLowState).2.2 = true ∧
        (tickJump witLowState).1 - witLowOb.posY > mkRat 6 5)) :=
  ⟨rfl, by simp [tickObstacles0, witOracle, witLowState, witState], rfl,
   witInterObstacle,
   (C2_low_obstacle witOracle witLowState witLowOb rfl
     (by simp [tickObstacles0, witOracle, witLowState, witState]) rfl rfl
     witInterObstacle (fun _ => rfl)).1⟩

/-- Claim C3 (confirmed): on an active tick whose obstacle scan sees exactly
one High Obstacle whose shrunk box intersects the player's shrunk box, the
run survives the tick if and only if the player is in the Sliding pose with
vertical offset below the ceiling threshold 1 relative to the obstacle's
base; with the Sliding flag down (Running or Jumping pose) the identical
intersection ends the run. -/
theorem C3_high_obstacle (o : Oracle) (s : GState) (ob : Obstacle)
    (ha : s.active = true)
    (hobs : tickObstacles0 o s = [ob])
    (htype : ob.type = EntityType.OBSTACLE_HIGH)
    (hinter : (shrinkObstacleBox (o.obstacleBox ob.id)).intersects
        (shrinkPlayerBox o.rawPlayerBox) = true) :
    (((loopTick o s).1).active = true ↔
      ((tickSlide s).1 = true ∧ (tickJump s).1 - ob.posY < 1)) ∧
    ((tickSlide s).1 = false → ((loopTick o s).1).active = false) := by
  have hflag := loopTick_activeFlag o s ha
  rw [hobs, obstaclePhase_singleton] at hflag
  have hhit : obstacleHit o (shrinkPlayerBox o.rawPlayerBox) (tickJump s).1
      (tickSlide s).1 ob
      = !((tickSlide s).1 && decide ((tickJump s).1 - ob.posY < 1)) := by
    simp [obstacleHit, hinter, htype]
  rw [hhit, Bool.not_not] at hflag
  constructor
  · rw [hflag]
    simp [Bool.and_eq_true, decide_eq_true_eq]
  · intro hS
    rw [hflag, hS]
    rfl

/-- Witness for C3: the high-obstacle fixture hit while Running (not
sliding), on which the run ends. -/
theorem C3_high_obstacle_witness :
    witHighState.active = true ∧
    tickObstacles0 witOracle witHighState = [witHighOb] ∧
    witHighOb.type = EntityType.OBSTACLE_HIGH ∧
    (shrinkObstacleBox (witOracle.obstacleBox witHighOb.id)).intersects
      (shrinkPlayerBox witOracle.rawPlayerBox) = true ∧
    ((tickSlide witHighState).1 = false →
      ((loopTick witOracle witHighState).1).active = false) :=
  ⟨rfl, by simp [tickObstacles0, witOracle, witHighState, witState], rfl,
   witInterObstacle,
   (C3_high_obstacle witOracle witHighState witHighOb rfl
     (by simp [tickObstacles0, witOracle, witHighState, witState]) rfl
     witInterObstacle).2⟩

/-- Claim C4 (confirmed): on an active tick in which exactly one collectible
in the scan intersects the player's shrunk hitbox, the score increases by
exactly 10, `onScoreUpdate` is invoked with the new score, a collect
notification is emitted, and exactly that collectible is removed from the
active set (the kept coins are exactly the non-colliding ones ahead of the
cull threshold); the obstacle set is unaffected by the collection. -/
theorem C4_collect (o : Oracle) (s : GState) (c : Coin)
    (ha : s.active = true)
    (hone : (tickCoins0 o s).filter
        (fun x => coinCollides o (shrinkPlayerBox o.rawPlayerBox) x) = [c]) :
    ((loopTick o s).1).score = s.score + 10 ∧
    (loopTick o s).2 =
      Event.scoreUpdate (s.score + 10) :: Event.audioCoin ::
        (obstaclePhase o (shrinkPlayerBox o.rawPlayerBox) (tickJump s).1
          (tickSlide s).1 (s.score + 10) true (tickObstacles0 o s)).2 ∧
    c ∉ ((loopTick o s).1).coins ∧
    ((loopTick o s).1).coins =
      (tickCoins0 o s).filter
        (fun x => !coinCollides o (shrinkPlayerBox o.rawPlayerBox) x &&
          !(decide (x.posZ > tickCullZ s))) ∧
    ((loopTick o s).1).obstacles =
      (tickObstacles0 o s).filter (fun ob => decide (ob.posZ ≤ tickCullZ s)) := by
  have hcp := coinPhase_single o (shrinkPlayerBox o.rawPlayerBox) (tickCullZ s)
    (tickCoins0 o s) s.score c hone
  have hc : coinCollides o (shrinkPlayerBox o.rawPlayerBox) c = true := by
    have hmem : c ∈ (tickCoins0 o s).filter
        (fun x => coinCollides o (shrinkPlayerBox o.rawPlayerBox) x) := by
      rw [hone]; exact List.mem_singleton.mpr rfl
    exact (List.mem_filter.mp hmem).2
  refine ⟨?_, ?_, ?_, ?_, loopTick_obstacles o s ha⟩
  · rw [loopTick_score o s ha, hcp]
  · rw [loopTick_events o s ha, hcp]
    simp
  · rw [loopTick_coins o s ha, hcp]
    intro hmem
    have := (List.mem_filter.mp hmem).2
    simp [hc] at this
  · rw [loopTick_coins o s ha, hcp]

/-- Witness for C4: the collectible fixture collides on the baseline tick. -/
theorem C4_collect_witness :
    witCoinState.active = true ∧
    (tickCoins0 witOracle witCoinState).filter
      (fun x => coinCollides witOracle
        (shrinkPlayerBox witOracle.rawPlayerBox) x) = [witCoin] ∧
    ((loopTick witOracle witCoinState).1).score = witCoinState.score + 10 ∧
    witCoin ∉ ((loopTick witOracle witCoinState).1).coins :=
  ⟨rfl, witCoinFilter,
   (C4_collect witOracle witCoinState witCoin rfl witCoinFilter).1,
   (C4_collect witOracle witCoinState witCoin rfl witCoinFilter).2.2.1⟩

/-- Claim C1 as stated is false on the code: on a tick where the player's
shrunk hitbox intersects two unavoided obstacles, the obstacle scan does not
stop at the first hit, so `onGameOver` is invoked twice within that tick (the
concrete input is an active run facing two ground-level High Obstacles at the
same depth while not sliding). -/
theorem C1_counterexample :
    cexTwoObstacles.active = true ∧
    gameOverCount (loopTick witOracle cexTwoObstacles).2 = 2 := by
  refine ⟨rfl, ?_⟩
  norm_num [loopTick, cexTwoObstacles, witState, witOracle, tickCullZ,
    tickPlayerZ, tickSpeed, MAX_SPEED, PLAYER_SPEED_BASE, SPEED_INCREMENT,
    CHUNK_LENGTH, tickDoSpawn, tickNextSpawnZ, tickCoins0, tickObstacles0,
    tickScenery0, coinPhase, obstaclePhase, obstacleHit, shrinkObstacleBox,
    shrinkPlayerBox, playerRawBox, bigBox, Box3.intersects, tickJump,
    tickSlide, initialFloorChunks, gameOverCount, isGameOverEvent,
    Rat.mkRat_eq_div]

/-- Claim C1 (amended): on every active tick, `onGameOver` is invoked exactly
once per unavoided intersecting obstacle — so exactly once when the terminal
tick has a single unavoided intersection, but more than once when several
unavoided obstacles intersect in that same tick — each invocation carries the
tick's final score, the active flag ends the tick up exactly when no obstacle
is hit, and once the flag is down every later tick leaves the state untouched
and emits nothing. -/
theorem C1_game_over_per_tick :
    (∀ (o : Oracle) (s : GState), s.active = false → loopTick o s = (s, [])) ∧
    (∀ (o : Oracle) (s : GState), s.active = true →
      gameOverCount (loopTick o s).2 =
        ((tickObstacles0 o s).filter
          (obstacleHit o (shrinkPlayerBox o.rawPlayerBox) (tickJump s).1
            (tickSlide s).1)).length) ∧
    (∀ (o : Oracle) (s : GState), s.active = true →
      (((loopTick o s).1).active = true ↔
        ∀ ob ∈ tickObstacles0 o s,
          obstacleHit o (shrinkPlayerBox o.rawPlayerBox) (tickJump s).1
            (tickSlide s).1 ob = false)) ∧
    (∀ (o : Oracle) (s : GState) (e : Event), s.active = true →
      e ∈ (loopTick o s).2 → isGameOverEvent e = true →
      e = Event.gameOver (((loopTick o s).1).score)) := by
  refine ⟨loopTick_inactive, ?_, ?_, ?_⟩
  · intro o s ha
    rw [loopTick_events o s ha, gameOverCount_append]
    rw [gameOverCount_eq_zero _
      (coinPhase_noGameOver o (shrinkPlayerBox o.rawPlayerBox) (tickCullZ s)
        (tickCoins0 o s) s.score)]
    rw [(obstaclePhase_events o (shrinkPlayerBox o.rawPlayerBox) (tickJump s).1
      (tickSlide s).1 _ (tickObstacles0 o s) true).2.1]
    exact Nat.zero_add _
  · intro o s ha
    rw [loopTick_activeFlag o s ha, obstaclePhase_fst]
    simp [List.any_eq_false]
  · intro o s e ha he hgo
    rw [loopTick_events o s ha] at he
    rcases List.mem_append.mp he with hc | ho2
    · have := coinPhase_noGameOver o (shrinkPlayerBox o.rawPlayerBox)
        (tickCullZ s) (tickCoins0 o s) s.score e hc
      rw [this] at hgo
      exact absurd hgo (by simp)
    · have := (obstaclePhase_events o (shrinkPlayerBox o.rawPlayerBox)
        (tickJump s).1 (tickSlide s).1 _ (tickObstacles0 o s) true).2.2 e ho2 hgo
      rw [this, loopTick_score o s ha]

/-- Witness for the amended C1: a frozen tick on the inactive fixture, and the
terminal tick on the single-high-obstacle fixture. -/
theorem C1_game_over_per_tick_witness :
    (witInactiveState.active = false ∧
      loopTick witOracle witInactiveState = (witInactiveState, [])) ∧
    (witHighState.active = true ∧
      gameOverCount (loopTick witOracle witHighState).2 =
        ((tickObstacles0 witOracle witHighState).filter
          (obstacleHit witOracle (shrinkPlayerBox witOracle.rawPlayerBox)
            (tickJump witHighState).1 (tickSlide witHighState).1)).length) :=
  ⟨⟨rfl, C1_game_over_per_tick.1 witOracle witInactiveState rfl⟩,
   ⟨rfl, C1_game_over_per_tick.2.1 witOracle witHighState rfl⟩⟩

/-- Claim C7 as stated is false on the code: the source's speed is an
IEEE-754 binary64 value, and the binary64 ramp from 0.25 is still below the
maximum after 7000 increments (it reads 0.5999999999999615, and in
particular is below the binary64 value of 0.6), so the guard admits a 7001st
increment, after which the speed is 0.6000499999999614… — strictly above the
configured maximum 0.6. -/
theorem C7_counterexample :
    speedSeqFP 7000 < MAX_SPEED_FP ∧ (3 : ℚ)/5 < fpVal (speedSeqFP 7001) := by
  constructor
  · rw [speedSeqFP_vals.1]
    decide
  · rw [speedSeqFP_vals.2]
    norm_num [fpVal]

/-- Claim C7 (amended): over every act sequence the speed is monotonically
non-decreasing, and likewise under the binary64 semantics of the ramp; on
each active tick below the maximum the binary64 speed increases by the
rounded increment (the binary64 neighbour of 0.00005, up to one ulp of the
result); and the binary64 ramp from the base speed peaks at its 7001st-tick
value and never passes it — a peak that exceeds the configured maximum 0.6,
but by less than 1/10000 (it is 0.6000499999999614…, one increment above). -/
theorem C7_speed_ramp_double :
    (∀ (acts : List Act) (s : GState), s.speed ≤ (runActs acts s).speed) ∧
    (∀ n : ℤ, n ≤ tickSpeedFP n) ∧
    (∀ n : ℤ, n < MAX_SPEED_FP →
      n + SPEED_INCREMENT_FP - 8192 ≤ tickSpeedFP n ∧
        tickSpeedFP n ≤ n + SPEED_INCREMENT_FP + 8192) ∧
    (∀ k : ℕ, speedSeqFP k ≤ speedSeqFP 7001) ∧
    ((3 : ℚ)/5 < fpVal (speedSeqFP 7001) ∧
      fpVal (speedSeqFP 7001) < (3 : ℚ)/5 + mkRat 1 10000) := by
  refine ⟨runActs_speed_ge, tickSpeedFP_ge, tickSpeedFP_step, speedSeqFP_le_peak,
    ?_, ?_⟩
  · rw [speedSeqFP_vals.2]
    norm_num [fpVal]
  · rw [speedSeqFP_vals.2]
    norm_num [fpVal, Rat.mkRat_eq_div]

/-- Witness for the amended C7: the base speed is below the maximum and gains
one rounded increment, and a concrete input-then-tick run never lowers the
speed. -/
theorem C7_speed_ramp_double_witness :
    (PLAYER_SPEED_BASE_FP < MAX_SPEED_FP ∧
      PLAYER_SPEED_BASE_FP + SPEED_INCREMENT_FP - 8192 ≤
        tickSpeedFP PLAYER_SPEED_BASE_FP) ∧
    witState.speed ≤ (runActs [Act.key "d", Act.frame witOracle] witState).speed :=
  ⟨⟨by decide,
    (C7_speed_ramp_double.2.2.1 PLAYER_SPEED_BASE_FP (by decide)).1⟩,
   C7_speed_ramp_double.1 [Act.key "d", Act.frame witOracle] witState⟩

end PawRun
